import Mathlib

/-!
Shallow embedding of the "logout service" (FastAPI + SQLAlchemy + Motor/Mongo).

Relational rows are embedded as Lean structures carrying exactly the columns the
service reads or writes (the ORM bookkeeping columns `id`, `created_at`,
`updated_at` are never consulted by the handlers and are omitted).  The two
relational tables are lists of rows; `find_one` embeds
`AbstractBaseModel.find_one` (a `filter_by(user_telegram_id=...)` +
`one_or_none`), and `commit_row` embeds the effect of mutating a fetched row
object and committing: the row with the given key is replaced.

The document store is embedded as explicit collections: the
`users_data.cookies` collection is a list of `CookieDoc`; the four
`tracking_data` collections (`marks`, `news`, `homeworks`, `requests`) hold
documents that the service only ever filters by their `"id"` field, so each
document is embedded as the value of that field.  `delete_one` removes the
first matching document (Mongo's delete-one semantics); `insert_one` on the
cookies collection enforces the unique index on `user_telegram_id` (created on
first insert) and fails with a duplicate-key error when a document with the
same id is already present.

`make_user_reset` runs its Mongo operations inside a transactional context
manager; a failure of any document-store operation aborts the transaction and
propagates out of the `async with` block before any relational statement runs.
That failure mode is embedded by the `mongo_ok` flag: `false` models a
document-store failure (transaction aborted, exception propagated), `true` the
normal path.
-/

/-- A row of the `user_status` table (`app/models/users/user_status.py`). -/
structure UserStatus where
  user_telegram_id : Int
  agreement_accepted : Bool
  authenticated : Bool
  login_attempt_count : Int
  failed_request_count : Int
deriving DecidableEq, Repr

/-- `UserStatus.fill` from the source. -/
def UserStatus.fill (_u : UserStatus) (uid : Int) : UserStatus :=
  { user_telegram_id := uid
    agreement_accepted := false
    authenticated := false
    login_attempt_count := 0
    failed_request_count := 0 }

/-- A row of the `user_notify_settings` table
(`app/models/users/user_notify_settings.py`). -/
structure UserNotifySettings where
  user_telegram_id : Int
  marks : Bool
  news : Bool
  homeworks : Bool
  requests : Bool
deriving DecidableEq, Repr

/-- `UserNotifySettings.fill` from the source: the fixed reset profile. -/
def UserNotifySettings.fill (_s : UserNotifySettings) (uid : Int) : UserNotifySettings :=
  { user_telegram_id := uid
    marks := true
    news := false
    homeworks := false
    requests := false }

/-- `AbstractBaseModel.find_one(session, user_telegram_id=uid)`: fetch the row
with the given unique key (the key column is unique, so the first match is the
only match). -/
def find_one {α : Type} (key : α → Int) (rows : List α) (uid : Int) : Option α :=
  rows.find? (fun r => key r == uid)

/-- Effect of mutating a fetched ORM row object and committing: the stored row
with the given unique key is replaced by the new value. -/
def commit_row {α : Type} (key : α → Int) (rows : List α) (uid : Int) (row : α) : List α :=
  rows.map (fun r => if key r == uid then row else r)

/-- A document of the `users_data.cookies` collection. -/
structure CookieDoc where
  user_telegram_id : Int
  cookies : List (String × String)
deriving DecidableEq, Repr

/-- The document-store state: the primary cookies collection plus the four
`tracking_data` collections, each of whose documents is embedded by its `"id"`
field (the only field the service touches). -/
structure MongoState where
  cookies_docs : List CookieDoc
  marks : List Int
  news : List Int
  homeworks : List Int
  requests : List Int
deriving DecidableEq, Repr

/-- `MongoHelper.delete_one`: remove the first document matching the filter;
zero matches is not an error. -/
def delete_one {α : Type} (p : α → Bool) (docs : List α) : List α :=
  docs.eraseP p

/-- `MongoHelper.insert_one` into `users_data.cookies` under the unique index
on `user_telegram_id`: a second document with the same id is rejected with
`DuplicateKeyError`. -/
def insert_one (docs : List CookieDoc) (doc : CookieDoc) : Except Unit (List CookieDoc) :=
  if docs.any (fun d => d.user_telegram_id == doc.user_telegram_id) then
    Except.error ()
  else
    Except.ok (docs ++ [doc])

/-- The relational state: the two tables. -/
structure SqlState where
  user_status : List UserStatus
  user_notify_settings : List UserNotifySettings
deriving DecidableEq, Repr

/-- The whole persistent state seen by the service. -/
structure AppState where
  sql : SqlState
  mongo : MongoState
deriving DecidableEq, Repr

/-- `make_user_reset` (`app/utils/managers.py`): delete the user's cookies
document and one tracking document per collection, then set
`authenticated=False`, overwrite the settings row via `fill`, and commit.
`mongo_ok = false` models a document-store failure inside the transactional
`async with` block: the Mongo transaction is aborted and the exception
propagates before any relational statement runs, so the state is unchanged. -/
def make_user_reset (st : AppState) (user_status : UserStatus)
    (user_settings : UserNotifySettings) (uid : Int) (mongo_ok : Bool) :
    Except Unit AppState :=
  if mongo_ok then
    let m := st.mongo
    let m' : MongoState :=
      { cookies_docs := delete_one (fun d => d.user_telegram_id == uid) m.cookies_docs
        marks := delete_one (fun i => i == uid) m.marks
        news := delete_one (fun i => i == uid) m.news
        homeworks := delete_one (fun i => i == uid) m.homeworks
        requests := delete_one (fun i => i == uid) m.requests }
    let us : UserStatus := { user_status with authenticated := false }
    let settings : UserNotifySettings := user_settings.fill uid
    Except.ok
      { sql :=
          { user_status := commit_row (fun r => r.user_telegram_id) st.sql.user_status uid us
            user_notify_settings :=
              commit_row (fun r => r.user_telegram_id) st.sql.user_notify_settings uid settings }
        mongo := m' }
  else
    Except.error ()

/-- `make_user_authorized` (`app/utils/managers.py`): insert the cookies
document (unique index on `user_telegram_id`), then set `authenticated=True`
and commit.  A `DuplicateKeyError` aborts the Mongo transaction and propagates
before the relational write. -/
def make_user_authorized (st : AppState) (user_status : UserStatus) (uid : Int)
    (cookies : List (String × String)) : Except Unit AppState :=
  match insert_one st.mongo.cookies_docs { user_telegram_id := uid, cookies := cookies } with
  | Except.error e => Except.error e
  | Except.ok docs =>
    let us : UserStatus := { user_status with authenticated := true }
    Except.ok
      { sql := { st.sql with
                  user_status := commit_row (fun r => r.user_telegram_id) st.sql.user_status uid us }
        mongo := { st.mongo with cookies_docs := docs } }

/-- Result of an HTTP handler: a success body or an error response
(status code, detail). -/
inductive ApiResult (α : Type) where
  | ok (body : α)
  | err (code : Nat) (detail : String)
deriving DecidableEq, Repr

/-- `UserStatusSchema` (`app/schemas.py`): the response body of
`GET /user/{id}` — exactly the five declared fields of the status row. -/
structure UserStatusSchema where
  user_telegram_id : Int
  agreement_accepted : Bool
  authenticated : Bool
  login_attempt_count : Int
  failed_request_count : Int
deriving DecidableEq, Repr

/-- `UserStatusSchema(**user.as_dict())`: the schema built from a row (pydantic
ignores the extra bookkeeping columns). -/
def UserStatusSchema.ofRow (u : UserStatus) : UserStatusSchema :=
  { user_telegram_id := u.user_telegram_id
    agreement_accepted := u.agreement_accepted
    authenticated := u.authenticated
    login_attempt_count := u.login_attempt_count
    failed_request_count := u.failed_request_count }

/-- `UserStatusAuthenticatedSchema` (`app/schemas.py`): the response body of
`PATCH /user/{id}/login`. -/
structure UserStatusAuthenticatedSchema where
  user_telegram_id : Int
  authenticated : Bool
deriving DecidableEq, Repr

/-- `get_user_status_and_user_settings_by_id_with_raise`
(`app/utils/utils.py`): fetch both rows; a missing status row raises 404
(checked first), then a missing settings row raises its own 404. -/
def get_user_status_and_user_settings_by_id_with_raise (st : SqlState) (uid : Int) :
    Except (Nat × String) (UserStatus × UserNotifySettings) :=
  match find_one (fun r => r.user_telegram_id) st.user_status uid,
        find_one (fun r => r.user_telegram_id) st.user_notify_settings uid with
  | none, _ => Except.error (404, "User doesn't exist in user_status table")
  | some _, none => Except.error (404, "User doesn't exist in user_settings table")
  | some us, some uset => Except.ok (us, uset)

/-- `GET /user/{user_telegram_id}` (`get_user_status` in `app/main.py`).
The path parameter is a `PositiveInt`; FastAPI rejects a non-positive id with
422 before the handler body runs.  The handler consults only the
`user_status` table. -/
def get_user_status (st : AppState) (uid : Int) : ApiResult UserStatusSchema :=
  if uid < 1 then ApiResult.err 422 "validation error"
  else
    match find_one (fun r => r.user_telegram_id) st.sql.user_status uid with
    | none => ApiResult.err 404 "User doesn't exist in user_status table"
    | some u => ApiResult.ok (UserStatusSchema.ofRow u)

/-- `POST /user/{user_telegram_id}/logout` (`logout_user` in `app/main.py`).
A successful reset answers 204 No Content (`ApiResult.ok ()`); an uncaught
document-store failure surfaces as a generic 500.  The handler returns the
response together with the resulting persistent state. -/
def logout_user (st : AppState) (uid : Int) (mongo_ok : Bool) :
    ApiResult Unit × AppState :=
  if uid < 1 then (ApiResult.err 422 "validation error", st)
  else
    match get_user_status_and_user_settings_by_id_with_raise st.sql uid with
    | Except.error (c, d) => (ApiResult.err c d, st)
    | Except.ok (us, uset) =>
      match make_user_reset st us uset uid mongo_ok with
      | Except.error _ => (ApiResult.err 500 "Internal Server Error", st)
      | Except.ok st2 => (ApiResult.ok (), st2)

/-- One store access performed while handling a request. -/
inductive StoreOp where
  | sqlReadStatus (uid : Int)
  | sqlReadSettings (uid : Int)
  | sqlCommit
  | mongoInsert
deriving DecidableEq, Repr

/-- `PATCH /user/{user_telegram_id}/login` (`login_user` in `app/main.py`).
The handler first fetches both relational rows (404 on a missing one), then
rejects an empty cookie mapping with 400, then runs `make_user_authorized`,
translating a `DuplicateKeyError` into 400 "User already logged in".  The
third component records the store accesses the executed path performed. -/
def login_user (st : AppState) (uid : Int) (cookies : List (String × String)) :
    ApiResult UserStatusAuthenticatedSchema × AppState × List StoreOp :=
  if uid < 1 then (ApiResult.err 422 "validation error", st, [])
  else
    let reads : List StoreOp := [StoreOp.sqlReadStatus uid, StoreOp.sqlReadSettings uid]
    match get_user_status_and_user_settings_by_id_with_raise st.sql uid with
    | Except.error (c, d) => (ApiResult.err c d, st, reads)
    | Except.ok (us, _uset) =>
      if cookies.isEmpty then (ApiResult.err 400 "Cookies is empty", st, reads)
      else
        match make_user_authorized st us uid cookies with
        | Except.error _ =>
            (ApiResult.err 400 "User already logged in", st, reads ++ [StoreOp.mongoInsert])
        | Except.ok st2 =>
            (ApiResult.ok { user_telegram_id := uid, authenticated := true }, st2,
              reads ++ [StoreOp.mongoInsert, StoreOp.sqlCommit])

/-- `ALLOWED_PATH_WITHOUT_AUTH` (`app/middlewares.py`). -/
def ALLOWED_PATH_WITHOUT_AUTH : List String := ["/docs", "/openapi.json", "/health"]

/-- The part of an inbound request the auth middleware looks at: the path and
the value of the configured credential header (`none` when absent). -/
structure AuthRequest where
  path : String
  token_header : Option String
deriving DecidableEq, Repr

/-- `AuthValidationMiddleware.dispatch` (`app/middlewares.py`), up to the
decision: `some (code, detail)` is a rejection response, `none` forwards the
request unchanged.  The walrus test `if token := headers.get(...)` treats an
absent header and an empty-string header value alike (both falsy → 401);
a non-empty wrong value is rejected 403. -/
def dispatch (secret : String) (req : AuthRequest) : Option (Nat × String) :=
  if req.path ∈ ALLOWED_PATH_WITHOUT_AUTH then none
  else
    match req.token_header with
    | none => some (401, "Unauthorized")
    | some token =>
      if token = "" then some (401, "Unauthorized")
      else if token ≠ secret then some (403, "Forbidden")
      else none

/-- The middleware wrapping an arbitrary downstream handler: a rejection
short-circuits (the handler is never invoked, the state untouched); otherwise
the unchanged request reaches the handler. -/
def serve {R : Type} (secret : String) (req : AuthRequest) (st : AppState)
    (reject : Nat → String → R) (handler : AuthRequest → AppState → R × AppState) :
    R × AppState :=
  match dispatch secret req with
  | some (c, d) => (reject c d, st)
  | none => handler req st

/-- The observable state of a user in the sense of the spec's idempotence
property: the `authenticated` flag, the notify-settings row, and the session
documents stored for that user. -/
structure ObservableState where
  authenticated : Option Bool
  notify : Option UserNotifySettings
  session_docs : List CookieDoc
deriving DecidableEq, Repr

/-- Project the persistent state onto one user's observable state. -/
def observe (st : AppState) (uid : Int) : ObservableState :=
  { authenticated :=
      (find_one (fun r => r.user_telegram_id) st.sql.user_status uid).map
        (fun r => r.authenticated)
    notify := find_one (fun r => r.user_telegram_id) st.sql.user_notify_settings uid
    session_docs := st.mongo.cookies_docs.filter (fun d => d.user_telegram_id == uid) }

/-! ### Helper lemmas about the store primitives -/

theorem find_one_key {α : Type} {key : α → Int} {rows : List α} {uid : Int} {x : α}
    (h : find_one key rows uid = some x) : key x = uid := by
  have h' : rows.find? (fun r => key r == uid) = some x := h
  simpa using List.find?_some h'

theorem find_one_commit_row {α : Type} (key : α → Int) (uid : Int) (row : α)
    (hrow : key row = uid) :
    ∀ rows : List α, (find_one key rows uid).isSome →
      find_one key (commit_row key rows uid row) uid = some row := by
  intro rows
  induction rows with
  | nil => simp [find_one]
  | cons r rs ih =>
    intro hs
    by_cases hr : key r = uid
    · have hc : commit_row key (r :: rs) uid row = row :: commit_row key rs uid row := by
        simp [commit_row, hr]
      rw [find_one, hc, List.find?_cons_of_pos _ (by simp [hrow])]
    · have hhead : ¬((fun x => key x == uid) r = true) := by simp [hr]
      have hc : commit_row key (r :: rs) uid row = r :: commit_row key rs uid row := by
        simp [commit_row, hr]
      rw [find_one, hc,
        @List.find?_cons_of_neg _ (fun x => key x == uid) r (commit_row key rs uid row) hhead]
      have hs' : (find_one key rs uid).isSome := by
        have he : find_one key (r :: rs) uid = find_one key rs uid :=
          @List.find?_cons_of_neg _ (fun x => key x == uid) r rs hhead
        rwa [he] at hs
      exact ih hs'

theorem countP_eraseP {α : Type} (p : α → Bool) (l : List α) :
    (l.eraseP p).countP p = l.countP p - 1 := by
  induction l with
  | nil => simp
  | cons a l ih =>
    by_cases h : p a
    · simp [List.eraseP_cons, h, List.countP_cons]
    · simp [List.eraseP_cons, h, List.countP_cons, ih]

theorem filter_eraseP_of_length_le_one {α : Type} (p : α → Bool) (l : List α)
    (h : (l.filter p).length ≤ 1) : (l.eraseP p).filter p = [] := by
  induction l with
  | nil => simp
  | cons a l ih =>
    by_cases ha : p a
    · have h1 : (l.filter p).length + 1 ≤ 1 := by
        simpa [List.filter_cons_of_pos ha] using h
      have h0 : l.filter p = [] := List.length_eq_zero.mp (by omega)
      rw [List.eraseP_cons_of_pos ha]
      exact h0
    · have h' : (l.filter p).length ≤ 1 := by
        simpa [List.filter_cons_of_neg ha] using h
      rw [List.eraseP_cons_of_neg ha, List.filter_cons_of_neg ha]
      exact ih h'

theorem eraseP_of_filter_nil {α : Type} {p : α → Bool} {l : List α}
    (h : l.filter p = []) : l.eraseP p = l :=
  List.eraseP_of_forall_not (by simpa using List.filter_eq_nil_iff.mp h)

theorem filter_of_any_false {α : Type} {p : α → Bool} {l : List α}
    (h : l.any p = false) : l.filter p = [] :=
  List.filter_eq_nil_iff.mpr (by simpa using (List.any_eq_false (l := l) (p := p)).mp h)

/-! ### Reduction lemmas for the handlers -/

theorem lookup_ok {st : SqlState} {uid : Int} {us : UserStatus} {uset : UserNotifySettings}
    (hus : find_one (fun r => r.user_telegram_id) st.user_status uid = some us)
    (hset : find_one (fun r => r.user_telegram_id) st.user_notify_settings uid = some uset) :
    get_user_status_and_user_settings_by_id_with_raise st uid = Except.ok (us, uset) := by
  simp [get_user_status_and_user_settings_by_id_with_raise, hus, hset]

theorem make_user_reset_ok (st : AppState) (user_status : UserStatus)
    (user_settings : UserNotifySettings) (uid : Int) :
    make_user_reset st user_status user_settings uid true =
      Except.ok
        { sql :=
            { user_status := commit_row (fun r => r.user_telegram_id) st.sql.user_status uid
                { user_status with authenticated := false }
              user_notify_settings :=
                commit_row (fun r => r.user_telegram_id) st.sql.user_notify_settings uid
                  (user_settings.fill uid) }
          mongo :=
            { cookies_docs := delete_one (fun d => d.user_telegram_id == uid) st.mongo.cookies_docs
              marks := delete_one (fun i => i == uid) st.mongo.marks
              news := delete_one (fun i => i == uid) st.mongo.news
              homeworks := delete_one (fun i => i == uid) st.mongo.homeworks
              requests := delete_one (fun i => i == uid) st.mongo.requests } } := by
  simp [make_user_reset]

theorem logout_user_ok {st : AppState} {uid : Int} {us : UserStatus} {uset : UserNotifySettings}
    (hval : 1 ≤ uid)
    (hus : find_one (fun r => r.user_telegram_id) st.sql.user_status uid = some us)
    (hset : find_one (fun r => r.user_telegram_id) st.sql.user_notify_settings uid = some uset) :
    logout_user st uid true =
      (ApiResult.ok (),
        { sql :=
            { user_status := commit_row (fun r => r.user_telegram_id) st.sql.user_status uid
                { us with authenticated := false }
              user_notify_settings :=
                commit_row (fun r => r.user_telegram_id) st.sql.user_notify_settings uid
                  (uset.fill uid) }
          mongo :=
            { cookies_docs := delete_one (fun d => d.user_telegram_id == uid) st.mongo.cookies_docs
              marks := delete_one (fun i => i == uid) st.mongo.marks
              news := delete_one (fun i => i == uid) st.mongo.news
              homeworks := delete_one (fun i => i == uid) st.mongo.homeworks
              requests := delete_one (fun i => i == uid) st.mongo.requests } }) := by
  have hlt : ¬uid < 1 := by omega
  simp [logout_user, hlt, lookup_ok hus hset, make_user_reset_ok]

/-! ### Concrete states used by the witnesses and counterexamples -/

/-- A sample status row: user 1, authenticated, nonzero counters. -/
def usW : UserStatus := ⟨1, true, true, 2, 1⟩

/-- A sample settings row distinct from the reset profile. -/
def usetW : UserNotifySettings := ⟨1, false, true, true, true⟩

/-- A sample state: user 1 present in both tables, one session document and
some tracking documents. -/
def stW : AppState :=
  { sql := { user_status := [usW], user_notify_settings := [usetW] }
    mongo := { cookies_docs := [⟨1, [("a", "b")]⟩]
               marks := [1]
               news := []
               homeworks := [1, 1]
               requests := [] } }

/-- The state produced by a successful reset of user 1 from `stW`. -/
def stW_reset : AppState := ((make_user_reset stW usW usetW 1 true).toOption).getD stW

/-- A sample state with two session documents for user 1 in the primary
collection (a pre-index duplicate), used to exercise delete-one semantics. -/
def stDup : AppState :=
  { sql := { user_status := [usW], user_notify_settings := [usetW] }
    mongo := { cookies_docs := [⟨1, [("a", "b")]⟩, ⟨1, [("c", "d")]⟩]
               marks := []
               news := []
               homeworks := []
               requests := [] } }

/-- The state after one reset of user 1 from `stDup`. -/
def stDup_reset : AppState := ((make_user_reset stDup usW usetW 1 true).toOption).getD stDup

/-- The state after a second reset of user 1 from `stDup_reset`. -/
def stDup_reset2 : AppState :=
  ((make_user_reset stDup_reset usW usetW 1 true).toOption).getD stDup_reset

/-- C6: a successful reset leaves `agreement_accepted`, `login_attempt_count`
and `failed_request_count` (and the key) of the user's status row unchanged;
among the status fields only `authenticated` changes, to `false`. -/
theorem C6_reset_frame (st : AppState) (uid : Int) (us : UserStatus)
    (uset : UserNotifySettings) (st' : AppState)
    (hus : find_one (fun r => r.user_telegram_id) st.sql.user_status uid = some us)
    (hok : make_user_reset st us uset uid true = Except.ok st') :
    find_one (fun r => r.user_telegram_id) st'.sql.user_status uid =
      some { user_telegram_id := us.user_telegram_id
             agreement_accepted := us.agreement_accepted
             authenticated := false
             login_attempt_count := us.login_attempt_count
             failed_request_count := us.failed_request_count } := by
  have hR := make_user_reset_ok st us uset uid
  rw [hok] at hR
  have hst := Except.ok.inj hR
  subst hst
  have hkey : us.user_telegram_id = uid := find_one_key hus
  have hrow : ({ us with authenticated := false } : UserStatus).user_telegram_id = uid := hkey
  have hsome : (find_one (fun r => r.user_telegram_id) st.sql.user_status uid).isSome := by
    simp [hus]
  have hfind := find_one_commit_row (fun r => r.user_telegram_id) uid
    { us with authenticated := false } hrow st.sql.user_status hsome
  obtain ⟨a1, a2, a3, a4, a5⟩ := us
  exact hfind

/-- C6 witness: the frame condition at a concrete state. -/
theorem C6_reset_frame_witness :
    find_one (fun r => r.user_telegram_id) stW.sql.user_status 1 = some usW ∧
    make_user_reset stW usW usetW 1 true = Except.ok stW_reset ∧
    find_one (fun r => r.user_telegram_id) stW_reset.sql.user_status 1 =
      some { user_telegram_id := usW.user_telegram_id
             agreement_accepted := usW.agreement_accepted
             authenticated := false
             login_attempt_count := usW.login_attempt_count
             failed_request_count := usW.failed_request_count } :=
  ⟨by decide, by rfl, C6_reset_frame stW 1 usW usetW stW_reset (by decide) (by rfl)⟩

/-- C7: a successful reset overwrites the user's notify-settings row with the
fixed reset profile `marks=true, news=false, homeworks=false, requests=false`,
whatever the prior flags were. -/
theorem C7_reset_notify_profile (st : AppState) (uid : Int) (us : UserStatus)
    (uset : UserNotifySettings) (st' : AppState)
    (hset : find_one (fun r => r.user_telegram_id) st.sql.user_notify_settings uid = some uset)
    (hok : make_user_reset st us uset uid true = Except.ok st') :
    find_one (fun r => r.user_telegram_id) st'.sql.user_notify_settings uid =
      some { user_telegram_id := uid
             marks := true
             news := false
             homeworks := false
             requests := false } := by
  have hR := make_user_reset_ok st us uset uid
  rw [hok] at hR
  have hst := Except.ok.inj hR
  subst hst
  have hrow : ((uset.fill uid) : UserNotifySettings).user_telegram_id = uid := rfl
  have hsome : (find_one (fun r => r.user_telegram_id) st.sql.user_notify_settings uid).isSome := by
    simp [hset]
  exact find_one_commit_row (fun r => r.user_telegram_id) uid (uset.fill uid) hrow
    st.sql.user_notify_settings hsome

/-- C7 witness: the reset profile at a concrete state whose prior flags all
differ from the profile. -/
theorem C7_reset_notify_profile_witness :
    find_one (fun r => r.user_telegram_id) stW.sql.user_notify_settings 1 = some usetW ∧
    make_user_reset stW usW usetW 1 true = Except.ok stW_reset ∧
    find_one (fun r => r.user_telegram_id) stW_reset.sql.user_notify_settings 1 =
      some { user_telegram_id := 1
             marks := true
             news := false
             homeworks := false
             requests := false } :=
  ⟨by decide, by rfl, C7_reset_notify_profile stW 1 usW usetW stW_reset (by decide) (by rfl)⟩

/-- C10: one reset call deletes at most one document per collection — the
matching-document count of the primary cookies collection and of each of the
four tracking collections drops by exactly one (truncated at zero); with two or
more matching documents, extras survive one reset, and a second reset removes
exactly one more. -/
theorem C10_delete_one_per_collection (st : AppState) (uid : Int) (us : UserStatus)
    (uset : UserNotifySettings) (st' : AppState)
    (hok : make_user_reset st us uset uid true = Except.ok st') :
    st'.mongo.cookies_docs.countP (fun d => d.user_telegram_id == uid) =
      st.mongo.cookies_docs.countP (fun d => d.user_telegram_id == uid) - 1 ∧
    st'.mongo.marks.countP (fun i => i == uid) = st.mongo.marks.countP (fun i => i == uid) - 1 ∧
    st'.mongo.news.countP (fun i => i == uid) = st.mongo.news.countP (fun i => i == uid) - 1 ∧
    st'.mongo.homeworks.countP (fun i => i == uid) =
      st.mongo.homeworks.countP (fun i => i == uid) - 1 ∧
    st'.mongo.requests.countP (fun i => i == uid) =
      st.mongo.requests.countP (fun i => i == uid) - 1 ∧
    (2 ≤ st.mongo.cookies_docs.countP (fun d => d.user_telegram_id == uid) →
      1 ≤ st'.mongo.cookies_docs.countP (fun d => d.user_telegram_id == uid)) ∧
    (∀ us2 uset2 st2, make_user_reset st' us2 uset2 uid true = Except.ok st2 →
      st2.mongo.cookies_docs.countP (fun d => d.user_telegram_id == uid) =
        st.mongo.cookies_docs.countP (fun d => d.user_telegram_id == uid) - 2) := by
  have hR := make_user_reset_ok st us uset uid
  rw [hok] at hR
  have hst := Except.ok.inj hR
  subst hst
  refine ⟨?_, ?_, ?_, ?_, ?_, ?_, ?_⟩
  · simp [delete_one, countP_eraseP]
  · simp [delete_one, countP_eraseP]
  · simp [delete_one, countP_eraseP]
  · simp [delete_one, countP_eraseP]
  · simp [delete_one, countP_eraseP]
  · intro h2
    have h1 := countP_eraseP (fun d => d.user_telegram_id == uid) st.mongo.cookies_docs
    simp [delete_one, h1]
    omega
  · intro us2 uset2 st2 hok2
    have hst2 := Except.ok.inj ((make_user_reset_ok _ us2 uset2 uid).symm.trans hok2)
    subst hst2
    have h1 := countP_eraseP (fun d => d.user_telegram_id == uid) st.mongo.cookies_docs
    have h2 := countP_eraseP (fun d => d.user_telegram_id == uid)
      (st.mongo.cookies_docs.eraseP (fun d => d.user_telegram_id == uid))
    simp [delete_one] at h2 ⊢
    omega

/-- C10 witness: with two session documents for user 1, one reset leaves one
document behind and a second reset removes it. -/
theorem C10_delete_one_per_collection_witness :
    make_user_reset stDup usW usetW 1 true = Except.ok stDup_reset ∧
    stDup_reset.mongo.cookies_docs.countP (fun d => d.user_telegram_id == 1) =
      stDup.mongo.cookies_docs.countP (fun d => d.user_telegram_id == 1) - 1 ∧
    (1 ≤ stDup_reset.mongo.cookies_docs.countP (fun d => d.user_telegram_id == 1)) ∧
    make_user_reset stDup_reset usW usetW 1 true = Except.ok stDup_reset2 ∧
    stDup_reset2.mongo.cookies_docs.countP (fun d => d.user_telegram_id == 1) =
      stDup.mongo.cookies_docs.countP (fun d => d.user_telegram_id == 1) - 2 :=
  ⟨by rfl,
   (C10_delete_one_per_collection stDup 1 usW usetW stDup_reset (by rfl)).1,
   (C10_delete_one_per_collection stDup 1 usW usetW stDup_reset (by rfl)).2.2.2.2.2.1
     (by decide),
   by rfl,
   (C10_delete_one_per_collection stDup 1 usW usetW stDup_reset (by rfl)).2.2.2.2.2.2
     usW usetW stDup_reset2 (by rfl)⟩

/-- A sample status row for a user that is not logged in. -/
def usF : UserStatus := ⟨1, false, false, 0, 0⟩

/-- A sample state where user 1 exists in both tables and has no session
document (another user's document is present). -/
def stLogin : AppState :=
  { sql := { user_status := [usF], user_notify_settings := [usetW] }
    mongo := { cookies_docs := [⟨2, [("x", "y")]⟩]
               marks := []
               news := []
               homeworks := []
               requests := [] } }

/-! ### Login reduction -/

theorem login_user_reduce {st : AppState} {uid : Int} {cookies : List (String × String)}
    {us : UserStatus} {uset : UserNotifySettings} (hval : 1 ≤ uid)
    (hus : find_one (fun r => r.user_telegram_id) st.sql.user_status uid = some us)
    (hset : find_one (fun r => r.user_telegram_id) st.sql.user_notify_settings uid = some uset)
    (hne : cookies ≠ []) :
    login_user st uid cookies =
      if st.mongo.cookies_docs.any (fun d => d.user_telegram_id == uid) then
        (ApiResult.err 400 "User already logged in", st,
          [StoreOp.sqlReadStatus uid, StoreOp.sqlReadSettings uid, StoreOp.mongoInsert])
      else
        (ApiResult.ok { user_telegram_id := uid, authenticated := true },
          { sql := { st.sql with
                      user_status := commit_row (fun r => r.user_telegram_id)
                        st.sql.user_status uid { us with authenticated := true } }
            mongo := { st.mongo with
                        cookies_docs :=
                          st.mongo.cookies_docs ++ [{ user_telegram_id := uid, cookies := cookies }] } },
          [StoreOp.sqlReadStatus uid, StoreOp.sqlReadSettings uid, StoreOp.mongoInsert,
            StoreOp.sqlCommit]) := by
  have hlt : ¬uid < 1 := by omega
  have hemp : cookies.isEmpty = false := by
    cases cookies with
    | nil => exact absurd rfl hne
    | cons a l => rfl
  by_cases hany : st.mongo.cookies_docs.any (fun d => d.user_telegram_id == uid)
  · simp [login_user, hlt, lookup_ok hus hset, hemp, make_user_authorized, insert_one, hany]
  · simp [login_user, hlt, lookup_ok hus hset, hemp, make_user_authorized, insert_one, hany]

/-- C1: when a session document for the user already exists, a login attempt
leaves the whole persistent state (status row, settings row, stored cookies)
unchanged whatever the submitted cookie payload, and — for a payload that
passes the emptiness check — fails with 400 "User already logged in". -/
theorem C1_already_logged_in_rejected (st : AppState) (uid : Int)
    (cookies : List (String × String)) (us : UserStatus) (uset : UserNotifySettings)
    (hval : 1 ≤ uid)
    (hus : find_one (fun r => r.user_telegram_id) st.sql.user_status uid = some us)
    (hset : find_one (fun r => r.user_telegram_id) st.sql.user_notify_settings uid = some uset)
    (hdoc : st.mongo.cookies_docs.any (fun d => d.user_telegram_id == uid) = true) :
    (login_user st uid cookies).2.1 = st ∧
    (cookies ≠ [] →
      (login_user st uid cookies).1 = ApiResult.err 400 "User already logged in") := by
  by_cases hne : cookies = []
  · subst hne
    have hlt : ¬uid < 1 := by omega
    constructor
    · simp [login_user, hlt, lookup_ok hus hset]
    · intro h
      exact absurd rfl h
  · rw [login_user_reduce hval hus hset hne]
    simp [hdoc]

/-- C1 witness: user 1 with an existing session document; a login attempt with
a fresh payload is rejected and changes nothing. -/
theorem C1_already_logged_in_rejected_witness :
    (1 : Int) ≤ 1 ∧
    find_one (fun r => r.user_telegram_id) stW.sql.user_status 1 = some usW ∧
    find_one (fun r => r.user_telegram_id) stW.sql.user_notify_settings 1 = some usetW ∧
    stW.mongo.cookies_docs.any (fun d => d.user_telegram_id == 1) = true ∧
    ([(("c" : String), ("d" : String))] ≠ []) ∧
    (login_user stW 1 [("c", "d")]).2.1 = stW ∧
    (login_user stW 1 [("c", "d")]).1 = ApiResult.err 400 "User already logged in" :=
  ⟨by decide, by decide, by decide, by decide, by decide,
   (C1_already_logged_in_rejected stW 1 [("c", "d")] usW usetW (by decide) (by decide)
      (by decide) (by decide)).1,
   (C1_already_logged_in_rejected stW 1 [("c", "d")] usW usetW (by decide) (by decide)
      (by decide) (by decide)).2 (by decide)⟩

/-- C3: when the login operation answers success, the status row shows
`authenticated=true` and the cookies collection holds exactly one document for
the user, carrying exactly the submitted cookies. -/
theorem C3_login_success_postcondition (st : AppState) (uid : Int)
    (cookies : List (String × String)) (us : UserStatus) (uset : UserNotifySettings)
    (body : UserStatusAuthenticatedSchema) (hval : 1 ≤ uid)
    (hus : find_one (fun r => r.user_telegram_id) st.sql.user_status uid = some us)
    (hset : find_one (fun r => r.user_telegram_id) st.sql.user_notify_settings uid = some uset)
    (hne : cookies ≠ [])
    (hsucc : (login_user st uid cookies).1 = ApiResult.ok body) :
    find_one (fun r => r.user_telegram_id)
        (login_user st uid cookies).2.1.sql.user_status uid =
      some { us with authenticated := true } ∧
    (login_user st uid cookies).2.1.mongo.cookies_docs.filter
        (fun d => d.user_telegram_id == uid) =
      [{ user_telegram_id := uid, cookies := cookies }] := by
  rw [login_user_reduce hval hus hset hne] at hsucc ⊢
  by_cases hany : st.mongo.cookies_docs.any (fun d => d.user_telegram_id == uid)
  · simp [hany] at hsucc
  · have hanyf : st.mongo.cookies_docs.any (fun d => d.user_telegram_id == uid) = false :=
      Bool.eq_false_iff.mpr hany
    have hfilter : st.mongo.cookies_docs.filter (fun d => d.user_telegram_id == uid) = [] :=
      filter_of_any_false hanyf
    have hkey : us.user_telegram_id = uid := find_one_key hus
    have hrow : ({ us with authenticated := true } : UserStatus).user_telegram_id = uid := hkey
    have hsome : (find_one (fun r => r.user_telegram_id) st.sql.user_status uid).isSome := by
      simp [hus]
    have hfind := find_one_commit_row (fun r => r.user_telegram_id) uid
      { us with authenticated := true } hrow st.sql.user_status hsome
    simp [hany, hfind, List.filter_append, hfilter]

/-- C3 witness: a fresh user logging in with a concrete cookie payload. -/
theorem C3_login_success_postcondition_witness :
    (1 : Int) ≤ 1 ∧
    find_one (fun r => r.user_telegram_id) stLogin.sql.user_status 1 = some usF ∧
    find_one (fun r => r.user_telegram_id) stLogin.sql.user_notify_settings 1 = some usetW ∧
    ([(("k" : String), ("v" : String))] ≠ []) ∧
    (login_user stLogin 1 [("k", "v")]).1 =
      ApiResult.ok { user_telegram_id := 1, authenticated := true } ∧
    find_one (fun r => r.user_telegram_id)
        (login_user stLogin 1 [("k", "v")]).2.1.sql.user_status 1 =
      some { usF with authenticated := true } ∧
    (login_user stLogin 1 [("k", "v")]).2.1.mongo.cookies_docs.filter
        (fun d => d.user_telegram_id == 1) =
      [{ user_telegram_id := 1, cookies := [("k", "v")] }] :=
  ⟨by decide, by decide, by decide, by decide, by decide,
   (C3_login_success_postcondition stLogin 1 [("k", "v")] usF usetW
      { user_telegram_id := 1, authenticated := true } (by decide) (by decide) (by decide)
      (by decide) (by decide)).1,
   (C3_login_success_postcondition stLogin 1 [("k", "v")] usF usetW
      { user_telegram_id := 1, authenticated := true } (by decide) (by decide) (by decide)
      (by decide) (by decide)).2⟩

/-- C4 counterexample: user 1 is logged in (`authenticated=true`, one session
document); a document-store failure during logout surfaces as an error and the
relational reset does NOT take effect — the state, in particular the status
row, is exactly as before, contradicting the claim that the relational reset
still happens. -/
theorem C4_mongo_failure_counterexample :
    (logout_user stW 1 false).2 = stW ∧
    (logout_user stW 1 false).1 = ApiResult.err 500 "Internal Server Error" ∧
    find_one (fun r => r.user_telegram_id) (logout_user stW 1 false).2.sql.user_status 1 =
      some usW ∧
    usW.authenticated = true := by
  refine ⟨by decide, by decide, by decide, by decide⟩

/-- C4 (amended): a document-store failure during logout aborts the whole
logout — the error surfaces to the caller and no relational write happens —
while a retried logout with a working document store completes the relational
reset (`authenticated=false`). -/
theorem C4_mongo_failure_blocks_reset (st : AppState) (uid : Int) (us : UserStatus)
    (uset : UserNotifySettings) (hval : 1 ≤ uid)
    (hus : find_one (fun r => r.user_telegram_id) st.sql.user_status uid = some us)
    (hset : find_one (fun r => r.user_telegram_id) st.sql.user_notify_settings uid = some uset) :
    logout_user st uid false = (ApiResult.err 500 "Internal Server Error", st) ∧
    (logout_user st uid true).1 = ApiResult.ok () ∧
    find_one (fun r => r.user_telegram_id) (logout_user st uid true).2.sql.user_status uid =
      some { us with authenticated := false } := by
  have hlt : ¬uid < 1 := by omega
  refine ⟨?_, ?_, ?_⟩
  · simp [logout_user, hlt, lookup_ok hus hset, make_user_reset]
  · rw [logout_user_ok hval hus hset]
  · rw [logout_user_ok hval hus hset]
    have hkey : us.user_telegram_id = uid := find_one_key hus
    have hrow : ({ us with authenticated := false } : UserStatus).user_telegram_id = uid := hkey
    have hsome : (find_one (fun r => r.user_telegram_id) st.sql.user_status uid).isSome := by
      simp [hus]
    exact find_one_commit_row (fun r => r.user_telegram_id) uid
      { us with authenticated := false } hrow st.sql.user_status hsome

/-- C4 witness: the amended behaviour at the concrete state `stW`. -/
theorem C4_mongo_failure_blocks_reset_witness :
    (1 : Int) ≤ 1 ∧
    find_one (fun r => r.user_telegram_id) stW.sql.user_status 1 = some usW ∧
    find_one (fun r => r.user_telegram_id) stW.sql.user_notify_settings 1 = some usetW ∧
    logout_user stW 1 false = (ApiResult.err 500 "Internal Server Error", stW) ∧
    (logout_user stW 1 true).1 = ApiResult.ok () ∧
    find_one (fun r => r.user_telegram_id) (logout_user stW 1 true).2.sql.user_status 1 =
      some { usW with authenticated := false } :=
  ⟨by decide, by decide, by decide,
   (C4_mongo_failure_blocks_reset stW 1 usW usetW (by decide) (by decide) (by decide)).1,
   (C4_mongo_failure_blocks_reset stW 1 usW usetW (by decide) (by decide) (by decide)).2.1,
   (C4_mongo_failure_blocks_reset stW 1 usW usetW (by decide) (by decide) (by decide)).2.2⟩

/-- A sample state where user 1 has a status row but no settings row. -/
def stNoSettings : AppState :=
  { sql := { user_status := [usW], user_notify_settings := [] }
    mongo := { cookies_docs := [], marks := [], news := [], homeworks := [], requests := [] } }

/-- C5 counterexample: the settings row of user 1 is missing, yet
`GET /user/1` answers 200 with the status fields — the handler never consults
the settings table, contradicting "404 if status or settings missing". -/
theorem C5_get_ignores_settings_counterexample :
    find_one (fun r => r.user_telegram_id) stNoSettings.sql.user_notify_settings 1 = none ∧
    get_user_status stNoSettings 1 = ApiResult.ok (UserStatusSchema.ofRow usW) := by
  refine ⟨by decide, by decide⟩

/-- C5 (amended): `GET /user/{id}` answers 422 for a non-positive id, 404 when
the status row is missing, and 200 with the status record fields otherwise —
the settings table is never consulted. -/
theorem C5_get_user_status_contract (st : AppState) (uid : Int) :
    (uid < 1 → get_user_status st uid = ApiResult.err 422 "validation error") ∧
    (1 ≤ uid → find_one (fun r => r.user_telegram_id) st.sql.user_status uid = none →
      get_user_status st uid = ApiResult.err 404 "User doesn't exist in user_status table") ∧
    (∀ u, 1 ≤ uid → find_one (fun r => r.user_telegram_id) st.sql.user_status uid = some u →
      get_user_status st uid = ApiResult.ok (UserStatusSchema.ofRow u)) := by
  refine ⟨?_, ?_, ?_⟩
  · intro h
    simp [get_user_status, h]
  · intro hval hnone
    have hlt : ¬uid < 1 := by omega
    simp [get_user_status, hlt, hnone]
  · intro u hval hsome
    have hlt : ¬uid < 1 := by omega
    simp [get_user_status, hlt, hsome]

/-- C5 witness: the three branches of the amended contract at concrete
inputs. -/
theorem C5_get_user_status_contract_witness :
    ((-7 : Int) < 1 ∧ get_user_status stNoSettings (-7) = ApiResult.err 422 "validation error") ∧
    ((1 : Int) ≤ 2 ∧
      find_one (fun r => r.user_telegram_id) stNoSettings.sql.user_status 2 = none ∧
      get_user_status stNoSettings 2 = ApiResult.err 404 "User doesn't exist in user_status table") ∧
    ((1 : Int) ≤ 1 ∧
      find_one (fun r => r.user_telegram_id) stNoSettings.sql.user_status 1 = some usW ∧
      get_user_status stNoSettings 1 = ApiResult.ok (UserStatusSchema.ofRow usW)) :=
  ⟨⟨by decide, (C5_get_user_status_contract stNoSettings (-7)).1 (by decide)⟩,
   ⟨by decide, by decide,
    (C5_get_user_status_contract stNoSettings 2).2.1 (by decide) (by decide)⟩,
   ⟨by decide, by decide,
    (C5_get_user_status_contract stNoSettings 1).2.2 usW (by decide) (by decide)⟩⟩

/-- C8 counterexample: a present-but-empty credential header value is not
equal to the secret, yet the gate answers 401 Unauthorized (the walrus
truthiness test lumps it with the absent-header case), not the 403 Forbidden
the claim requires for any present-but-wrong value. -/
theorem C8_empty_header_counterexample :
    ("" : String) ≠ "SecretToken" ∧
    dispatch "SecretToken" ⟨"/user/1", some ""⟩ = some (401, "Unauthorized") ∧
    dispatch "SecretToken" ⟨"/user/1", some ""⟩ ≠ some (403, "Forbidden") := by
  refine ⟨by decide, by decide, by decide⟩

/-- C8 (amended): allow-listed paths bypass the gate unconditionally; on other
paths an absent header — or a header with an empty value — yields 401, a
non-empty wrong value yields 403, and the exact (non-empty) secret forwards
the unchanged request to the handler.  On every rejection the result is the
same for every downstream handler (it is never invoked) and the state is
untouched. -/
theorem C8_auth_gate_contract {R : Type} (secret : String) (req : AuthRequest)
    (st : AppState) (reject : Nat → String → R)
    (handler : AuthRequest → AppState → R × AppState) :
    (req.path ∈ ALLOWED_PATH_WITHOUT_AUTH →
      serve secret req st reject handler = handler req st) ∧
    (req.path ∉ ALLOWED_PATH_WITHOUT_AUTH →
      (req.token_header = none →
        serve secret req st reject handler = (reject 401 "Unauthorized", st)) ∧
      (req.token_header = some "" →
        serve secret req st reject handler = (reject 401 "Unauthorized", st)) ∧
      (∀ t, req.token_header = some t → t ≠ "" → t ≠ secret →
        serve secret req st reject handler = (reject 403 "Forbidden", st)) ∧
      (req.token_header = some secret → secret ≠ "" →
        serve secret req st reject handler = handler req st)) := by
  constructor
  · intro hmem
    simp [serve, dispatch, hmem]
  · intro hmem
    refine ⟨?_, ?_, ?_, ?_⟩
    · intro hnone
      simp [serve, dispatch, hmem, hnone]
    · intro hempty
      simp [serve, dispatch, hmem, hempty]
    · intro t ht htne htw
      simp [serve, dispatch, hmem, ht, htne, htw]
    · intro hsec hne
      simp [serve, dispatch, hmem, hsec, hne]

/-- C8 witness: the four branches of the gate at concrete requests, with a
concrete downstream handler. -/
theorem C8_auth_gate_contract_witness :
    ("/user/1" ∉ ALLOWED_PATH_WITHOUT_AUTH) ∧
    serve "SecretToken" ⟨"/user/1", none⟩ stW (fun c d => (c, d))
        (fun _ s => (((200 : Nat), "handled"), s)) = ((401, "Unauthorized"), stW) ∧
    serve "SecretToken" ⟨"/user/1", some "wrong"⟩ stW (fun c d => (c, d))
        (fun _ s => (((200 : Nat), "handled"), s)) = ((403, "Forbidden"), stW) ∧
    serve "SecretToken" ⟨"/user/1", some "SecretToken"⟩ stW (fun c d => (c, d))
        (fun _ s => (((200 : Nat), "handled"), s)) = ((200, "handled"), stW) ∧
    ("/health" ∈ ALLOWED_PATH_WITHOUT_AUTH) ∧
    serve "SecretToken" ⟨"/health", none⟩ stW (fun c d => (c, d))
        (fun _ s => (((200 : Nat), "handled"), s)) = ((200, "handled"), stW) :=
  ⟨by decide,
   ((C8_auth_gate_contract "SecretToken" ⟨"/user/1", none⟩ stW (fun c d => (c, d))
      (fun _ s => (((200 : Nat), "handled"), s))).2 (by decide)).1 rfl,
   ((C8_auth_gate_contract "SecretToken" ⟨"/user/1", some "wrong"⟩ stW (fun c d => (c, d))
      (fun _ s => (((200 : Nat), "handled"), s))).2 (by decide)).2.2.1 "wrong" rfl
      (by decide) (by decide),
   ((C8_auth_gate_contract "SecretToken" ⟨"/user/1", some "SecretToken"⟩ stW
      (fun c d => (c, d)) (fun _ s => (((200 : Nat), "handled"), s))).2 (by decide)).2.2.2
      rfl (by decide),
   by decide,
   (C8_auth_gate_contract "SecretToken" ⟨"/health", none⟩ stW (fun c d => (c, d))
      (fun _ s => (((200 : Nat), "handled"), s))).1 (by decide)⟩

/-- C9 counterexample: a login request with an empty cookie mapping for an
existing user is indeed rejected 400 "Cookies is empty", but only after the
handler has read the status and settings rows — the access trace is non-empty,
contradicting "no store read or write occurs". -/
theorem C9_empty_cookies_counterexample :
    (login_user stLogin 1 []).1 = ApiResult.err 400 "Cookies is empty" ∧
    (login_user stLogin 1 []).2.2 =
      [StoreOp.sqlReadStatus 1, StoreOp.sqlReadSettings 1] ∧
    (login_user stLogin 1 []).2.2 ≠ [] := by
  refine ⟨by decide, by decide, by decide⟩

/-- C9 (amended): for a user present in both tables, a login request with an
empty cookie mapping is rejected 400 "Cookies is empty" before the orchestrator
runs: the state is unchanged and the only store accesses are the two relational
row reads of the lookup step — no store write and no document-store access. -/
theorem C9_empty_cookies_rejected_after_reads (st : AppState) (uid : Int)
    (us : UserStatus) (uset : UserNotifySettings) (hval : 1 ≤ uid)
    (hus : find_one (fun r => r.user_telegram_id) st.sql.user_status uid = some us)
    (hset : find_one (fun r => r.user_telegram_id) st.sql.user_notify_settings uid = some uset) :
    login_user st uid [] =
      (ApiResult.err 400 "Cookies is empty", st,
        [StoreOp.sqlReadStatus uid, StoreOp.sqlReadSettings uid]) := by
  have hlt : ¬uid < 1 := by omega
  simp [login_user, hlt, lookup_ok hus hset]

/-- C9 witness: the amended behaviour at a concrete state. -/
theorem C9_empty_cookies_rejected_after_reads_witness :
    (1 : Int) ≤ 1 ∧
    find_one (fun r => r.user_telegram_id) stLogin.sql.user_status 1 = some usF ∧
    find_one (fun r => r.user_telegram_id) stLogin.sql.user_notify_settings 1 = some usetW ∧
    login_user stLogin 1 [] =
      (ApiResult.err 400 "Cookies is empty", stLogin,
        [StoreOp.sqlReadStatus 1, StoreOp.sqlReadSettings 1]) :=
  ⟨by decide, by decide, by decide,
   C9_empty_cookies_rejected_after_reads stLogin 1 usF usetW (by decide) (by decide)
     (by decide)⟩

/-- A logged-out status row for user 1 (non-trivial other fields). -/
def usOut : UserStatus := ⟨1, true, false, 3, 2⟩

/-- A settings row for user 1 that differs from the reset profile. -/
def usetOdd : UserNotifySettings := ⟨1, false, false, false, false⟩

/-- User 1 logged out (no session document) but with notify settings away from
the reset profile. -/
def stOut : AppState :=
  { sql := { user_status := [usOut], user_notify_settings := [usetOdd] }
    mongo := { cookies_docs := [], marks := [], news := [], homeworks := [], requests := [] } }

/-- The settings row equal to the reset profile for user 1. -/
def usetP : UserNotifySettings := ⟨1, true, false, false, false⟩

/-- User 1 logged out, settings already at the reset profile, no documents. -/
def stOutP : AppState :=
  { sql := { user_status := [usOut], user_notify_settings := [usetP] }
    mongo := { cookies_docs := [], marks := [], news := [], homeworks := [], requests := [] } }

/-- C2 counterexample: user 1 is already logged out (`authenticated=false`, no
session document), yet logout is not observably a no-op — it overwrites the
notify settings to the reset profile, changing the observable state. -/
theorem C2_logout_not_noop_counterexample :
    usOut.authenticated = false ∧
    stOut.mongo.cookies_docs.filter (fun d => d.user_telegram_id == 1) = [] ∧
    (logout_user stOut 1 true).1 = ApiResult.ok () ∧
    observe (logout_user stOut 1 true).2 1 ≠ observe stOut 1 := by
  refine ⟨by decide, by decide, by decide, by decide⟩

/-- C2 (amended): for an existing user, (a) logout of an already-logged-out
user whose notify settings already equal the reset profile succeeds (204) with
no observable change, and (b) whenever at most one session document exists for
the user, two logouts in a row succeed and end in the same observable state as
one — `authenticated=false`, the reset profile, zero session documents. -/
theorem C2_logout_idempotent (st : AppState) (uid : Int) (us : UserStatus)
    (uset : UserNotifySettings) (hval : 1 ≤ uid)
    (hus : find_one (fun r => r.user_telegram_id) st.sql.user_status uid = some us)
    (hset : find_one (fun r => r.user_telegram_id) st.sql.user_notify_settings uid = some uset) :
    ((us.authenticated = false ∧ uset = uset.fill uid ∧
        st.mongo.cookies_docs.filter (fun d => d.user_telegram_id == uid) = []) →
      (logout_user st uid true).1 = ApiResult.ok () ∧
      observe (logout_user st uid true).2 uid = observe st uid) ∧
    ((st.mongo.cookies_docs.filter (fun d => d.user_telegram_id == uid)).length ≤ 1 →
      (logout_user st uid true).1 = ApiResult.ok () ∧
      (logout_user (logout_user st uid true).2 uid true).1 = ApiResult.ok () ∧
      observe (logout_user (logout_user st uid true).2 uid true).2 uid =
        observe (logout_user st uid true).2 uid ∧
      observe (logout_user st uid true).2 uid =
        { authenticated := some false
          notify := some (uset.fill uid)
          session_docs := [] }) := by
  have hlt : ¬uid < 1 := by omega
  have hkey : us.user_telegram_id = uid := find_one_key hus
  have hrow1 : ({ us with authenticated := false } : UserStatus).user_telegram_id = uid := hkey
  have hsome1 : (find_one (fun r => r.user_telegram_id) st.sql.user_status uid).isSome := by
    simp [hus]
  have f1 := find_one_commit_row (fun r => r.user_telegram_id) uid
    { us with authenticated := false } hrow1 st.sql.user_status hsome1
  have hsome2 :
      (find_one (fun r => r.user_telegram_id) st.sql.user_notify_settings uid).isSome := by
    simp [hset]
  have f2 := find_one_commit_row (fun r => r.user_telegram_id) uid (uset.fill uid) rfl
    st.sql.user_notify_settings hsome2
  constructor
  · rintro ⟨h1, h2, h3⟩
    have hcook : st.mongo.cookies_docs.eraseP (fun d => d.user_telegram_id == uid) =
        st.mongo.cookies_docs := eraseP_of_filter_nil h3
    rw [logout_user_ok hval hus hset]
    refine ⟨rfl, ?_⟩
    simp [observe, f1, f2, delete_one, hcook, hus, hset, h1]
    exact h2.symm
  · intro hle
    have hfe : ((st.mongo.cookies_docs.eraseP (fun d => d.user_telegram_id == uid)).filter
        (fun d => d.user_telegram_id == uid)) = [] :=
      filter_eraseP_of_length_le_one _ _ hle
    have her : ((st.mongo.cookies_docs.eraseP (fun d => d.user_telegram_id == uid)).eraseP
        (fun d => d.user_telegram_id == uid)) =
        st.mongo.cookies_docs.eraseP (fun d => d.user_telegram_id == uid) :=
      eraseP_of_filter_nil hfe
    rw [logout_user_ok hval hus hset]
    have hrow2 : (({ us with authenticated := false } : UserStatus)).user_telegram_id = uid :=
      hkey
    have hsome1' : (find_one (fun r => r.user_telegram_id)
        (commit_row (fun r => r.user_telegram_id) st.sql.user_status uid
          { us with authenticated := false }) uid).isSome := by
      simp [f1]
    have f1b := find_one_commit_row (fun r => r.user_telegram_id) uid
      { us with authenticated := false } hrow2
      (commit_row (fun r => r.user_telegram_id) st.sql.user_status uid
        { us with authenticated := false }) hsome1'
    have hsome2' : (find_one (fun r => r.user_telegram_id)
        (commit_row (fun r => r.user_telegram_id) st.sql.user_notify_settings uid
          (uset.fill uid)) uid).isSome := by
      simp [f2]
    have f2b := find_one_commit_row (fun r => r.user_telegram_id) uid
      ((uset.fill uid).fill uid) rfl
      (commit_row (fun r => r.user_telegram_id) st.sql.user_notify_settings uid
        (uset.fill uid)) hsome2'
    refine ⟨rfl, ?_, ?_, ?_⟩
    · simp [logout_user, hlt, get_user_status_and_user_settings_by_id_with_raise,
        f1, f2, make_user_reset]
    · simp [logout_user, hlt, get_user_status_and_user_settings_by_id_with_raise,
        f1, f2, make_user_reset, observe, f1b, f2b, delete_one, her, hfe]
      rfl
    · simp [observe, f1, f2, delete_one, hfe]

/-- C2 witness: the amended idempotence at a concrete already-logged-out state
whose settings sit at the reset profile. -/
theorem C2_logout_idempotent_witness :
    (1 : Int) ≤ 1 ∧
    find_one (fun r => r.user_telegram_id) stOutP.sql.user_status 1 = some usOut ∧
    find_one (fun r => r.user_telegram_id) stOutP.sql.user_notify_settings 1 = some usetP ∧
    (usOut.authenticated = false ∧ usetP = usetP.fill 1 ∧
      stOutP.mongo.cookies_docs.filter (fun d => d.user_telegram_id == 1) = []) ∧
    ((logout_user stOutP 1 true).1 = ApiResult.ok () ∧
      observe (logout_user stOutP 1 true).2 1 = observe stOutP 1) ∧
    ((stOutP.mongo.cookies_docs.filter (fun d => d.user_telegram_id == 1)).length ≤ 1) ∧
    ((logout_user stOutP 1 true).1 = ApiResult.ok () ∧
      (logout_user (logout_user stOutP 1 true).2 1 true).1 = ApiResult.ok () ∧
      observe (logout_user (logout_user stOutP 1 true).2 1 true).2 1 =
        observe (logout_user stOutP 1 true).2 1 ∧
      observe (logout_user stOutP 1 true).2 1 =
        { authenticated := some false
          notify := some (usetP.fill 1)
          session_docs := [] }) :=
  ⟨by decide, by decide, by decide, by decide,
   (C2_logout_idempotent stOutP 1 usOut usetP (by decide) (by decide) (by decide)).1
     (by decide),
   by decide,
   (C2_logout_idempotent stOutP 1 usOut usetP (by decide) (by decide) (by decide)).2
     (by decide)⟩
